import Mathlib

/-!
Shallow embedding of `packages/cubejs-schema-compiler/src/adapter/OracleQuery.ts`
(the Oracle dialect of the cube query compiler) together with proofs about the
pagination, version-detection, interval-arithmetic, grouping, filtering and
identifier-validation behaviour of that file.

JavaScript-specific behaviour is modelled explicitly:
`parseInt` returning `NaN` becomes `Option Int` (`none` = `NaN`), JS truthiness
of the various value shapes is modelled per shape, and template-literal
interpolation of `undefined`/`NaN` is modelled by rendering those tokens.
-/

namespace Cube

/-- Model of JS `String.prototype.split(sep)` on a character separator,
accumulating the current fragment. -/
def splitOnCharAux (sep : Char) : List Char → List Char → List (List Char)
  | [], acc => [acc.reverse]
  | c :: cs, acc =>
    if c = sep then acc.reverse :: splitOnCharAux sep cs []
    else splitOnCharAux sep cs (c :: acc)

/-- JS `s.split(sep)` for a one-character separator: always returns at least
one fragment; `"".split(sep)` returns `[""]`. -/
def splitChars (sep : Char) (s : String) : List String :=
  (splitOnCharAux sep s.toList []).map String.mk

/-- Decimal value of a digit run (helper for the `parseInt` model). -/
def digitsToNat : List Char → Nat → Nat
  | [], acc => acc
  | c :: cs, acc => digitsToNat cs (acc * 10 + (c.toNat - '0'.toNat))

/-- Longest leading digit run, or `none` when there is none (JS `NaN`). -/
def jsParseIntDigits (cs : List Char) : Option Nat :=
  let ds := cs.takeWhile Char.isDigit
  if ds.isEmpty then none else some (digitsToNat ds 0)

/-- Model of JS `parseInt(s, 10)`: skip leading whitespace, read an optional
sign and then the longest digit run; `none` models `NaN`. -/
def jsParseInt (s : String) : Option Int :=
  let cs := s.toList.dropWhile (fun c => c == ' ' || c == '\t' || c == '\n' || c == '\r')
  match cs with
  | '-' :: rest => (jsParseIntDigits rest).map (fun n => -(n : Int))
  | '+' :: rest => (jsParseIntDigits rest).map (fun n => (n : Int))
  | _ => (jsParseIntDigits cs).map (fun n => (n : Int))

/-- Rendering of a JS number inside a template literal: `NaN` (modelled as
`none`) prints as the token `NaN`. -/
def jsNumToString : Option Int → String
  | none => "NaN"
  | some n => toString n

/-- JS `+` on numbers: `NaN` is absorbing. -/
def jsAdd : Option Int → Option Int → Option Int
  | some a, some b => some (a + b)
  | _, _ => none

/-- The TS type `string | number | null | undefined` of `rowLimit` /
`options.limit` in `OracleQuery`. -/
inductive RawLimit where
  | undef : RawLimit
  | null : RawLimit
  | num : Int → RawLimit
  | str : String → RawLimit
deriving DecidableEq, Repr

/-- `OracleQuery.resolvedRowLimit` (OracleQuery.ts lines 33-39): `this.rowLimit`
when it is not `undefined`, otherwise `this.options?.limit`. -/
def resolvedRowLimit (rowLimit optionsLimit : RawLimit) : RawLimit :=
  match rowLimit with
  | RawLimit.undef => optionsLimit
  | x => x

/-- `OracleQuery.parseRowLimit` (lines 41-48): `null`/`undefined` fall back to
the default 10000; strings go through `parseInt` with the same 10000 fallback
when the result is not finite. -/
def parseRowLimit : RawLimit → Int
  | RawLimit.undef => 10000
  | RawLimit.null => 10000
  | RawLimit.num n => n
  | RawLimit.str s =>
    match jsParseInt s with
    | some n => n
    | none => 10000

/-- The shape of `this.offset` as the TS code can observe it: absent, a number,
or a string. -/
inductive JsOffset where
  | undef : JsOffset
  | num : Int → JsOffset
  | str : String → JsOffset
deriving DecidableEq, Repr

/-- JS truthiness of the offset value: `undefined` and `0` are falsy, every
nonempty string (including `"0"`) is truthy. -/
def JsOffset.truthy : JsOffset → Bool
  | JsOffset.undef => false
  | JsOffset.num n => n != 0
  | JsOffset.str s => s != ""

/-- `parseInt(this.offset, 10)`: numbers are stringified and reparsed (the
identity on integers), strings go through the `parseInt` model. -/
def JsOffset.parseIntV : JsOffset → Option Int
  | JsOffset.undef => none
  | JsOffset.num n => some n
  | JsOffset.str s => jsParseInt s

/-- The value of `const offset = this.offset ? parseInt(this.offset, 10) : 0`
used by `wrapQueryWithRownum` (line 114). -/
def effOffset (off : JsOffset) : Option Int :=
  if off.truthy then off.parseIntV else some 0

/-- First component of `envVersion.split('.')` (line 64); `split` always
yields at least one part. -/
def firstVersionPart (v : String) : String :=
  (splitChars '.' v).headD ""

/-- `OracleQuery.supportsOffsetFetch` (lines 60-71): when the environment
variable is truthy, parse the major version with `parts[0] || 12` (so `NaN`
and `0` both fall back to 12) and compare against 12; otherwise default to
`true`. -/
def supportsOffsetFetch (envVersion : Option String) : Bool :=
  match envVersion with
  | none => true
  | some v =>
    if v == "" then true
    else
      let major : Int :=
        match jsParseInt (firstVersionPart v) with
        | some m => if m = 0 then 12 else m
        | none => 12
      major ≥ 12

/-- `OracleQuery.groupByDimensionLimit` (lines 79-92): empty under the ROWNUM
strategy; otherwise an `OFFSET ... ROWS` clause when the offset is truthy
followed by a `FETCH NEXT ... ROWS ONLY` clause unless the resolved limit is
exactly `null`. -/
def groupByDimensionLimit (supportsOF : Bool) (rowLimit optionsLimit : RawLimit)
    (off : JsOffset) : String :=
  if supportsOF = false then ""
  else
    let rawRowLimit := resolvedRowLimit rowLimit optionsLimit
    let limitClause :=
      if rawRowLimit = RawLimit.null then ""
      else " FETCH NEXT " ++ toString (parseRowLimit rawRowLimit) ++ " ROWS ONLY"
    let offsetClause :=
      if off.truthy then " OFFSET " ++ jsNumToString off.parseIntV ++ " ROWS" else ""
    offsetClause ++ limitClause

/-- `OracleQuery.wrapQueryWithRownum` (lines 106-128): unchanged when the
resolved limit is `null` and the offset is falsy; a single ROWNUM wrap when the
parsed offset is exactly `0`; otherwise the double wrap with inner bound
`offset + limit` and outer filter `rnum > offset` (JS `NaN` propagates into
the emitted text). -/
def wrapQueryWithRownum (rowLimit optionsLimit : RawLimit) (off : JsOffset)
    (query : String) : String :=
  let rawRowLimit := resolvedRowLimit rowLimit optionsLimit
  if rawRowLimit = RawLimit.null ∧ off.truthy = false then query
  else
    let limit := parseRowLimit rawRowLimit
    let offset := effOffset off
    if offset = some 0 then
      "SELECT * FROM (" ++ query ++ ") WHERE ROWNUM <= " ++ toString limit
    else
      let maxRow := jsAdd offset (some limit)
      "SELECT * FROM (\n  SELECT a.*, ROWNUM rnum FROM (\n" ++ query ++
        "\n  ) a WHERE ROWNUM <= " ++ jsNumToString maxRow ++
        "\n) WHERE rnum > " ++ jsNumToString offset

/-- The pagination-relevant part of `OracleQuery.buildSqlAndParams`
(lines 133-146); the SQL produced by the base class is abstracted as the
`sql` argument, and the parameter list is untouched by this override. -/
def buildSqlAndParams (supportsOF : Bool) (rowLimit optionsLimit : RawLimit)
    (off : JsOffset) (sql : String) : String :=
  let rawRowLimit := resolvedRowLimit rowLimit optionsLimit
  if supportsOF = false ∧ (rawRowLimit ≠ RawLimit.null ∨ off.truthy = true) then
    wrapQueryWithRownum rowLimit optionsLimit off sql
  else sql

/-- The granularity enum of the data model (closed set, including `quarter`). -/
inductive Granularity where
  | second | minute | hour | day | week | month | quarter | year
deriving DecidableEq, Repr

/-- The `GRANULARITY_VALUE` record (OracleQuery.ts lines 7-15). `quarter` has
no key in the record, so the lookup yields JS `undefined`, modelled `none`. -/
def GRANULARITY_VALUE : Granularity → Option String
  | Granularity.day => some "DD"
  | Granularity.week => some "IW"
  | Granularity.hour => some "HH24"
  | Granularity.minute => some "mm"
  | Granularity.second => some "ss"
  | Granularity.month => some "MM"
  | Granularity.year => some "YYYY"
  | Granularity.quarter => none

/-- Template-literal interpolation of a possibly-`undefined` string: JS prints
`undefined` as the literal token `undefined`. -/
def jsUndefToString : Option String → String
  | none => "undefined"
  | some s => s

/-- `OracleQuery.timeGroupedColumn` (lines 198-203): identity without a
granularity, otherwise `TRUNC(dimension, '<token>')` with the record lookup
interpolated. -/
def timeGroupedColumn (granularity : Option Granularity) (dimension : String) : String :=
  match granularity with
  | none => dimension
  | some g => "TRUNC(" ++ dimension ++ ", '" ++ jsUndefToString (GRANULARITY_VALUE g) ++ "')"

/-- A parsed SQL interval: unit to signed magnitude, with only mentioned units
present (the return shape of the shared `parseSqlInterval`). -/
structure SqlInterval where
  year : Option Int := none
  quarter : Option Int := none
  month : Option Int := none
  day : Option Int := none
  hour : Option Int := none
  minute : Option Int := none
  second : Option Int := none
deriving DecidableEq, Repr

/-- JS truthiness of an interval field: present and nonzero. -/
def truthyI : Option Int → Bool
  | some n => n != 0
  | none => false

/-- The `totalMonths` accumulation of `addInterval`/`subtractInterval`
(lines 214-223 and 255-264): each calendar unit contributes only when truthy. -/
def totalMonthsOf (i : SqlInterval) : Int :=
  (if truthyI i.year then i.year.getD 0 * 12 else 0)
  + (if truthyI i.quarter then i.quarter.getD 0 * 3 else 0)
  + (if truthyI i.month then i.month.getD 0 else 0)

/-- The `if (totalMonths !== 0) { res = ADD_MONTHS(...) }` step of
`addInterval` (lines 225-227). -/
def addMonthsStep (res : String) (totalMonths : Int) : String :=
  if totalMonths ≠ 0 then "ADD_MONTHS(" ++ res ++ ", " ++ toString totalMonths ++ ")" else res

/-- The `if (totalMonths !== 0) { res = ADD_MONTHS(res, -totalMonths) }` step
of `subtractInterval` (lines 266-268): the template text `-${totalMonths}` is
a literal minus sign prepended to the rendering of `totalMonths`. -/
def subMonthsStep (res : String) (totalMonths : Int) : String :=
  if totalMonths ≠ 0 then "ADD_MONTHS(" ++ res ++ ", -" ++ toString totalMonths ++ ")" else res

/-- One `if (intervalParsed.unit) { res = ... NUMTODSINTERVAL(...) }` step of
`addInterval` and `subtractInterval` (lines 230-241 and 271-282): when the
magnitude is truthy, append the function-call text around the rendered
magnitude. -/
def addDur (res : String) (mag : Option Int) (fname tail : String) : String :=
  if truthyI mag then res ++ fname ++ toString (mag.getD 0) ++ tail else res

/-- `OracleQuery.addInterval` (lines 209-244) applied to an already-parsed
interval: one `ADD_MONTHS` wrap when `totalMonths` is nonzero, then one
`+ NUMTODSINTERVAL` term per truthy duration unit, in day, hour, minute,
second order. -/
def addIntervalParsed (date : String) (i : SqlInterval) : String :=
  let res := date
  let res := addMonthsStep res (totalMonthsOf i)
  let res := addDur res i.day " + NUMTODSINTERVAL(" ", 'DAY')"
  let res := addDur res i.hour " + NUMTODSINTERVAL(" ", 'HOUR')"
  let res := addDur res i.minute " + NUMTODSINTERVAL(" ", 'MINUTE')"
  let res := addDur res i.second " + NUMTODSINTERVAL(" ", 'SECOND')"
  res

/-- `OracleQuery.subtractInterval` (lines 250-285) applied to an
already-parsed interval: the `ADD_MONTHS` step with the `-` prefix, then one
`- NUMTODSINTERVAL` term per truthy duration unit in the same fixed order. -/
def subtractIntervalParsed (date : String) (i : SqlInterval) : String :=
  let res := date
  let res := subMonthsStep res (totalMonthsOf i)
  let res := addDur res i.day " - NUMTODSINTERVAL(" ", 'DAY')"
  let res := addDur res i.hour " - NUMTODSINTERVAL(" ", 'HOUR')"
  let res := addDur res i.minute " - NUMTODSINTERVAL(" ", 'MINUTE')"
  let res := addDur res i.second " - NUMTODSINTERVAL(" ", 'SECOND')"
  res

/-- Record a magnitude under a unit name (helper of the interval parser). -/
def setUnit (i : SqlInterval) (u : String) (n : Int) : SqlInterval :=
  if u = "year" then { i with year := some n }
  else if u = "quarter" then { i with quarter := some n }
  else if u = "month" then { i with month := some n }
  else if u = "day" then { i with day := some n }
  else if u = "hour" then { i with hour := some n }
  else if u = "minute" then { i with minute := some n }
  else if u = "second" then { i with second := some n }
  else i

/-- Consume magnitude/unit token pairs (helper of the interval parser). -/
def parseIntervalTokens : List String → SqlInterval → SqlInterval
  | mag :: unit :: rest, acc =>
    (match jsParseInt mag with
     | some n => parseIntervalTokens rest (setUnit acc unit n)
     | none => parseIntervalTokens rest acc)
  | _, acc => acc

/-- Modelled from the spec: `parseSqlInterval` lives in the shared package
`@cubejs-backend/shared`, which is not part of these sources. Per the spec it
parses a textual duration such as `"1 year 6 month"` into a mapping from unit
to signed integer magnitude over {year, quarter, month, day, hour, minute,
second}, where only explicitly mentioned units are present. -/
def parseSqlInterval (s : String) : SqlInterval :=
  parseIntervalTokens ((splitChars ' ' s).filter (fun t => t ≠ "")) {}

/-- `OracleQuery.addInterval` on interval text, via the parser model. -/
def addInterval (date interval : String) : String :=
  addIntervalParsed date (parseSqlInterval interval)

/-- `OracleQuery.subtractInterval` on interval text, via the parser model. -/
def subtractInterval (date interval : String) : String :=
  subtractIntervalParsed date (parseSqlInterval interval)

/-- The combined calendar magnitude exactly as the spec words it:
`year*12 + quarter*3 + month` over the present units. -/
def combinedMonths (i : SqlInterval) : Int :=
  i.year.getD 0 * 12 + i.quarter.getD 0 * 3 + i.month.getD 0

/-- One duration term as the spec words it: an additive `NUMTODSINTERVAL`
term for a present nonzero unit, `+`-chained for addition and `-`-chained for
subtraction. -/
def durTerm (plus : Bool) (mag : Option Int) (unit : String) : String :=
  match mag with
  | some n =>
    if n ≠ 0 then
      (if plus then " + NUMTODSINTERVAL(" else " - NUMTODSINTERVAL(") ++ toString n
        ++ (", '" ++ unit ++ "')")
    else ""
  | none => ""

/-- The claim-shaped description of `addInterval`: one `ADD_MONTHS` call of
the combined calendar magnitude when it is nonzero, then the duration terms
for the present nonzero units in day, hour, minute, second order. -/
def addIntervalSpec (x : String) (i : SqlInterval) : String :=
  (if combinedMonths i ≠ 0 then "ADD_MONTHS(" ++ x ++ ", " ++ toString (combinedMonths i) ++ ")" else x)
  ++ durTerm true i.day "DAY" ++ durTerm true i.hour "HOUR"
  ++ durTerm true i.minute "MINUTE" ++ durTerm true i.second "SECOND"

/-- The claim-shaped description of `subtractInterval`: structurally identical
to `addIntervalSpec` with the calendar magnitude negated and the duration
terms chained with `-`. -/
def subtractIntervalSpec (x : String) (i : SqlInterval) : String :=
  (if combinedMonths i ≠ 0 then "ADD_MONTHS(" ++ x ++ ", " ++ toString (-combinedMonths i) ++ ")" else x)
  ++ durTerm false i.day "DAY" ++ durTerm false i.hour "HOUR"
  ++ durTerm false i.minute "MINUTE" ++ durTerm false i.second "SECOND"

/-- One entry of `this.forSelect()` as `groupByClause` (lines 163-174)
observes it: the `dimension` field (absent on measures), the result of
`selectColumns()` (`none` models a `null` return, the case of a time dimension
without granularity), and the `dimensionSql()` rendering. -/
structure SelectItem where
  dimension : Option String
  selectColumns : Option (List String)
  dimensionSql : String
deriving DecidableEq, Repr

/-- JS truthiness of `item.dimension`: a present nonempty string. -/
def dimTruthy : Option String → Bool
  | some s => s != ""
  | none => false

/-- The filter predicate of `groupByClause`:
`!!item.dimension && item.selectColumns && item.selectColumns()`
(an array return is always truthy, a `null` return is falsy). -/
def groupByFilter (it : SelectItem) : Bool :=
  dimTruthy it.dimension && it.selectColumns.isSome

/-- `OracleQuery.groupByClause` (lines 163-174): comma-joined full dimension
expressions of the filtered items, or the empty string when none remain. -/
def groupByClause (items : List SelectItem) : String :=
  let dimensions := items.filter groupByFilter
  if dimensions.isEmpty then ""
  else " GROUP BY " ++ String.intercalate ", " (dimensions.map SelectItem.dimensionSql)

/-- JS falsiness of the `type` argument of `likeIgnoreCase`: absent or empty. -/
def strFalsy : Option String → Bool
  | none => true
  | some s => s == ""

/-- `OracleFilter.likeIgnoreCase` (lines 25-29). `allocatedParam` stands for
the result of `this.allocateParam(param)` (from `BaseFilter`, outside these
sources); the method is a pure text transform around it. -/
def likeIgnoreCase (column : String) (negated : Bool) (allocatedParam : String)
    (type : Option String) : String :=
  let p := if strFalsy type || type == some "contains" || type == some "ends" then "'%' || " else ""
  let s := if strFalsy type || type == some "contains" || type == some "starts" then " || '%'" else ""
  column ++ (if negated then " NOT" else "") ++ " LIKE " ++ p ++ allocatedParam ++ s

/-- The identifier-length threshold hard-coded in
`OracleQuery.preAggregationTableName` (line 298). -/
def maxIdentifierLength : Nat := 128

/-- Head of the `UserError` message thrown by `preAggregationTableName`
(line 299); the offending identifier is appended after it. -/
def oracleNameErrorHead : String :=
  "Oracle can not work with table names that longer than 64 symbols. Consider using the 'sqlAlias' attribute in your cube and in your pre-aggregation definition for "

/-- `OracleQuery.preAggregationTableName` (lines 296-302): the name produced
by the base implementation (abstracted as the input) is returned unchanged
unless its length exceeds the threshold, in which case a `UserError` carrying
the identifier is thrown (modelled with `Except`). -/
def preAggregationTableName (name : String) : Except String String :=
  if name.length > maxIdentifierLength then
    Except.error (oracleNameErrorHead ++ name ++ ".")
  else Except.ok name

/-! ## Helper lemmas -/

/-- Rendering a negated positive integer is the minus sign followed by the
rendering of the integer. -/
theorem toString_neg_of_pos (n : Int) (h : 0 < n) : toString (-n) = "-" ++ toString n := by
  match n, h with
  | Int.ofNat (k + 1), _ => rfl

/-! ## C1 -/

/-- C1: under the ROWNUM wrapping strategy, for every query string and every
present (non-null) limit resolving to `n`: when the effective offset is 0 the
result is the single-wrap form `SELECT * FROM (inner) WHERE ROWNUM <= n`, and
when the effective offset is a nonzero `o` the result is the double-wrap form
whose middle layer filters `ROWNUM <= o + n` and aliases the ordinal as
`rnum`, and whose outer layer filters `rnum > o`. -/
theorem wrapQueryWithRownum_forms (q : String) (rl ol : RawLimit) (off : JsOffset) (n : Int)
    (hnn : resolvedRowLimit rl ol ≠ RawLimit.null)
    (hn : parseRowLimit (resolvedRowLimit rl ol) = n) :
    (effOffset off = some 0 →
      wrapQueryWithRownum rl ol off q =
        "SELECT * FROM (" ++ q ++ ") WHERE ROWNUM <= " ++ toString n)
    ∧ (∀ o : Int, o ≠ 0 → effOffset off = some o →
      wrapQueryWithRownum rl ol off q =
        "SELECT * FROM (\n  SELECT a.*, ROWNUM rnum FROM (\n" ++ q ++
          "\n  ) a WHERE ROWNUM <= " ++ toString (o + n) ++
          "\n) WHERE rnum > " ++ toString o) := by
  constructor
  · intro h0
    simp only [wrapQueryWithRownum]
    rw [if_neg (fun hc => hnn hc.1), if_pos h0, hn]
  · intro o ho2 ho
    simp only [wrapQueryWithRownum]
    rw [if_neg (fun hc => hnn hc.1),
      if_neg (by rw [ho]; simp [ho2]), ho, hn]
    simp [jsAdd, jsNumToString]

/-- C1 witness: with limit 10 the offset-less call yields the single-wrap
form bounded by 10, and offset 5 yields inner bound 15 and outer filter 5. -/
theorem wrapQueryWithRownum_forms_witness :
    wrapQueryWithRownum (RawLimit.num 10) RawLimit.undef JsOffset.undef "SELECT 1"
      = "SELECT * FROM (SELECT 1) WHERE ROWNUM <= 10"
    ∧ wrapQueryWithRownum (RawLimit.num 10) RawLimit.undef (JsOffset.num 5) "SELECT 1"
      = "SELECT * FROM (\n  SELECT a.*, ROWNUM rnum FROM (\nSELECT 1\n  ) a WHERE ROWNUM <= 15\n) WHERE rnum > 5" := by
  constructor
  · exact ((wrapQueryWithRownum_forms "SELECT 1" (RawLimit.num 10) RawLimit.undef
      JsOffset.undef 10 (by decide) rfl).1 rfl).trans (by decide)
  · exact ((wrapQueryWithRownum_forms "SELECT 1" (RawLimit.num 10) RawLimit.undef
      (JsOffset.num 5) 10 (by decide) rfl).2 5 (by decide) rfl).trans (by decide)

/-! ## C2 -/

/-- C2 counterexample: under ROWNUM wrapping with offset 5, an explicitly
null limit does not skip wrapping — it produces exactly the same double-wrap
(with the default bound, inner `10005`) as an absent limit, so the two cases
are conflated there. -/
theorem null_limit_with_offset_conflated :
    buildSqlAndParams false RawLimit.null RawLimit.undef (JsOffset.num 5) "q"
      = buildSqlAndParams false RawLimit.undef RawLimit.undef (JsOffset.num 5) "q"
    ∧ buildSqlAndParams false RawLimit.null RawLimit.undef (JsOffset.num 5) "q" ≠ "q"
    ∧ buildSqlAndParams false RawLimit.null RawLimit.undef (JsOffset.num 5) "q"
      = "SELECT * FROM (\n  SELECT a.*, ROWNUM rnum FROM (\nq\n  ) a WHERE ROWNUM <= 10005\n) WHERE rnum > 5" := by
  refine ⟨by decide, by decide, by decide⟩

/-- C2 amended: an absent limit gets the default bound 10000 while an
explicitly null limit emits no FETCH NEXT clause under the native strategy
and skips ROWNUM wrapping when no offset is present; but under ROWNUM
wrapping with a truthy offset a null limit behaves exactly like an absent
one (the default bound applies), so the two cases coincide there. -/
theorem null_vs_absent_limit (q : String) (ol : RawLimit) (off : JsOffset) :
    (groupByDimensionLimit true RawLimit.null ol off
      = (if off.truthy then " OFFSET " ++ jsNumToString off.parseIntV ++ " ROWS" else ""))
    ∧ (groupByDimensionLimit true RawLimit.undef RawLimit.undef off
      = (if off.truthy then " OFFSET " ++ jsNumToString off.parseIntV ++ " ROWS" else "")
          ++ " FETCH NEXT 10000 ROWS ONLY")
    ∧ (off.truthy = false → buildSqlAndParams false RawLimit.null ol off q = q)
    ∧ (off.truthy = false → buildSqlAndParams false RawLimit.undef RawLimit.undef off q
        = "SELECT * FROM (" ++ q ++ ") WHERE ROWNUM <= 10000")
    ∧ (off.truthy = true → buildSqlAndParams false RawLimit.null RawLimit.undef off q
        = buildSqlAndParams false RawLimit.undef RawLimit.undef off q) := by
  refine ⟨?_, ?_, ?_, ?_, ?_⟩
  · simp [groupByDimensionLimit, resolvedRowLimit]
  · simp only [groupByDimensionLimit, resolvedRowLimit, parseRowLimit]
    simp only [String.append_assoc]
    rfl
  · intro hoff
    simp [buildSqlAndParams, wrapQueryWithRownum, resolvedRowLimit, hoff]
  · intro hoff
    simp [buildSqlAndParams, wrapQueryWithRownum, resolvedRowLimit, hoff, effOffset,
      parseRowLimit]
    simp only [String.append_assoc]
    rfl
  · intro hoff
    simp [buildSqlAndParams, wrapQueryWithRownum, resolvedRowLimit, hoff, effOffset,
      parseRowLimit]

/-- C2 witness: the amended statement evaluated at offset 7 and at an absent
offset. -/
theorem null_vs_absent_limit_witness :
    buildSqlAndParams false RawLimit.null RawLimit.undef JsOffset.undef "q" = "q"
    ∧ buildSqlAndParams false RawLimit.undef RawLimit.undef JsOffset.undef "q"
        = "SELECT * FROM (q) WHERE ROWNUM <= 10000"
    ∧ buildSqlAndParams false RawLimit.null RawLimit.undef (JsOffset.num 7) "q"
        = buildSqlAndParams false RawLimit.undef RawLimit.undef (JsOffset.num 7) "q" := by
  refine ⟨(null_vs_absent_limit "q" RawLimit.undef JsOffset.undef).2.2.1 rfl,
    ((null_vs_absent_limit "q" RawLimit.undef JsOffset.undef).2.2.2.1 rfl).trans (by decide),
    (null_vs_absent_limit "q" RawLimit.undef (JsOffset.num 7)).2.2.2.2 rfl⟩

/-! ## C3 -/

/-- C3 counterexample: the version string "0.1" has a major component that
parses to the integer 0, which is less than 12, yet the code selects the
native OFFSET/FETCH strategy (because `parts[0] || 12` treats the falsy major
0 as 12). -/
theorem major_version_zero_selects_native :
    jsParseInt (firstVersionPart "0.1") = some 0
    ∧ (0 : Int) < 12
    ∧ supportsOffsetFetch (some "0.1") = true := by
  refine ⟨by decide, by decide, by decide⟩

/-- C3 amended: an absent variable or an unparsable major component selects
the native strategy; a major component parsing to a nonzero integer below 12
selects ROWNUM wrapping; a major of 12 or more (and, through the `|| 12`
fallback, a major of exactly 0) selects the native strategy. -/
theorem supportsOffsetFetch_by_major (v : String) (m : Int) :
    (supportsOffsetFetch none = true)
    ∧ (jsParseInt (firstVersionPart v) = none → supportsOffsetFetch (some v) = true)
    ∧ (jsParseInt (firstVersionPart v) = some m → m ≠ 0 → m < 12 →
        supportsOffsetFetch (some v) = false)
    ∧ (jsParseInt (firstVersionPart v) = some m → 12 ≤ m →
        supportsOffsetFetch (some v) = true)
    ∧ (jsParseInt (firstVersionPart v) = some 0 → supportsOffsetFetch (some v) = true) := by
  have hparse : v = "" → jsParseInt (firstVersionPart v) = none := by
    intro hv; subst hv; decide
  refine ⟨rfl, ?_, ?_, ?_, ?_⟩
  · intro h
    simp only [supportsOffsetFetch]
    split
    · rfl
    · rw [h]
      simp
  · intro h hm0 hm12
    simp only [supportsOffsetFetch]
    split
    · rename_i hv
      rw [hparse (by simpa using hv)] at h
      exact absurd h (by simp)
    · rw [h]
      simp [hm0, hm12, not_le.mpr hm12]
  · intro h hm12
    simp only [supportsOffsetFetch]
    split
    · rfl
    · rw [h]
      by_cases hm0 : m = 0 <;> simp [hm0, hm12]
  · intro h
    simp only [supportsOffsetFetch]
    split
    · rfl
    · rw [h]
      simp

/-- C3 witness: the amended statement at "11.2", "11.2.0.4", "12.1", "19.3"
and "invalid". -/
theorem supportsOffsetFetch_by_major_witness :
    supportsOffsetFetch (some "11.2") = false
    ∧ supportsOffsetFetch (some "11.2.0.4") = false
    ∧ supportsOffsetFetch (some "12.1") = true
    ∧ supportsOffsetFetch (some "19.3") = true
    ∧ supportsOffsetFetch (some "invalid") = true
    ∧ supportsOffsetFetch none = true := by
  refine ⟨(supportsOffsetFetch_by_major "11.2" 11).2.2.1 (by decide) (by decide) (by decide),
    (supportsOffsetFetch_by_major "11.2.0.4" 11).2.2.1 (by decide) (by decide) (by decide),
    (supportsOffsetFetch_by_major "12.1" 12).2.2.2.1 (by decide) (by decide),
    (supportsOffsetFetch_by_major "19.3" 19).2.2.2.1 (by decide) (by decide),
    (supportsOffsetFetch_by_major "invalid" 0).2.1 (by decide),
    (supportsOffsetFetch_by_major "" 0).1⟩

/-! ## C4 and C5 interval lemmas -/

/-- A truthiness-guarded calendar contribution is just the product of the
defaulted magnitude. -/
theorem truthy_mul (o : Option Int) (k : Int) :
    (if truthyI o = true then o.getD 0 * k else 0) = o.getD 0 * k := by
  rcases o with _ | v
  · simp [truthyI]
  · by_cases hv : v = 0 <;> simp [truthyI, hv]

/-- A truthiness-guarded calendar contribution without a factor. -/
theorem truthy_id (o : Option Int) :
    (if truthyI o = true then o.getD 0 else 0) = o.getD 0 := by
  rcases o with _ | v
  · simp [truthyI]
  · by_cases hv : v = 0 <;> simp [truthyI, hv]

/-- The truthiness-guarded `totalMonths` accumulation in the source equals
the plain sum `year*12 + quarter*3 + month` of the spec. -/
theorem totalMonths_eq_combined (i : SqlInterval) : totalMonthsOf i = combinedMonths i := by
  simp [totalMonthsOf, combinedMonths, truthy_mul, truthy_id]

/-- A `+` duration step is the running expression followed by the
corresponding spec-shaped duration term. -/
theorem addDur_durTerm_plus (res : String) (v : Option Int) (u tail : String)
    (ht : tail = ", '" ++ u ++ "')") :
    addDur res v " + NUMTODSINTERVAL(" tail = res ++ durTerm true v u := by
  subst ht
  rcases v with _ | n
  · simp [addDur, durTerm, truthyI]
  · by_cases hn : n = 0
    · simp [addDur, durTerm, truthyI, hn]
    · simp [addDur, durTerm, truthyI, hn, String.append_assoc]

/-- A `-` duration step is the running expression followed by the
corresponding spec-shaped duration term. -/
theorem addDur_durTerm_minus (res : String) (v : Option Int) (u tail : String)
    (ht : tail = ", '" ++ u ++ "')") :
    addDur res v " - NUMTODSINTERVAL(" tail = res ++ durTerm false v u := by
  subst ht
  rcases v with _ | n
  · simp [addDur, durTerm, truthyI]
  · by_cases hn : n = 0
    · simp [addDur, durTerm, truthyI, hn]
    · simp [addDur, durTerm, truthyI, hn, String.append_assoc]

/-- For a nonnegative magnitude, the `-${totalMonths}` template of the
subtraction step renders the negated magnitude. -/
theorem subMonthsStep_eq_neg (x : String) (tm : Int) (h : 0 ≤ tm) :
    subMonthsStep x tm
      = if tm ≠ 0 then "ADD_MONTHS(" ++ x ++ ", " ++ toString (-tm) ++ ")" else x := by
  by_cases h0 : tm = 0
  · simp [subMonthsStep, h0]
  · have hpos : 0 < tm := lt_of_le_of_ne h (Ne.symm h0)
    rw [toString_neg_of_pos tm hpos]
    simp only [subMonthsStep, h0, ne_eq, not_false_iff, if_true, if_pos]
    simp only [String.append_assoc]
    rfl

/-- C4 amended: `addInterval` folds year, quarter and month into a single
`ADD_MONTHS` call of magnitude `year*12 + quarter*3 + month` exactly when
that sum is nonzero, then chains one `+ NUMTODSINTERVAL` term per present
*nonzero* duration unit in day, hour, minute, second order (a unit present
with magnitude 0 is skipped by JS truthiness); the quoted examples fold to
magnitudes 18, 9 and 12 respectively, and an interval with no units leaves
the date expression unchanged. -/
theorem addInterval_shape (x : String) (i : SqlInterval) :
    addIntervalParsed x i = addIntervalSpec x i
    ∧ addInterval x "1 year 6 month" = "ADD_MONTHS(" ++ x ++ ", 18)"
    ∧ addInterval x "2 quarter 3 month" = "ADD_MONTHS(" ++ x ++ ", 9)"
    ∧ addInterval x "1 year 2 day 3 hour"
      = "ADD_MONTHS(" ++ x ++ ", 12) + NUMTODSINTERVAL(2, 'DAY') + NUMTODSINTERVAL(3, 'HOUR')"
    ∧ addIntervalParsed x {} = x := by
  have hmain : ∀ (z : String) (j : SqlInterval), addIntervalParsed z j = addIntervalSpec z j := by
    intro z j
    simp only [addIntervalParsed]
    rw [addDur_durTerm_plus _ _ "SECOND" ", 'SECOND')" rfl,
      addDur_durTerm_plus _ _ "MINUTE" ", 'MINUTE')" rfl,
      addDur_durTerm_plus _ _ "HOUR" ", 'HOUR')" rfl,
      addDur_durTerm_plus _ _ "DAY" ", 'DAY')" rfl,
      totalMonths_eq_combined]
    simp only [addIntervalSpec, addMonthsStep]
  refine ⟨hmain x i, ?_, ?_, ?_, ?_⟩
  · rw [show addInterval x "1 year 6 month"
        = addIntervalParsed x { year := some 1, month := some 6 } from rfl,
      hmain]
    simp only [addIntervalSpec, combinedMonths, durTerm]
    norm_num
    simp only [String.append_assoc]
    rfl
  · rw [show addInterval x "2 quarter 3 month"
        = addIntervalParsed x { quarter := some 2, month := some 3 } from rfl,
      hmain]
    simp only [addIntervalSpec, combinedMonths, durTerm]
    norm_num
    simp only [String.append_assoc]
    rfl
  · rw [show addInterval x "1 year 2 day 3 hour"
        = addIntervalParsed x { year := some 1, day := some 2, hour := some 3 } from rfl,
      hmain]
    simp only [addIntervalSpec, combinedMonths, durTerm]
    norm_num
    simp only [String.append_assoc]
    rfl
  · rw [hmain]
    simp [addIntervalSpec, combinedMonths, durTerm]

/-- C4 counterexample: the parsed interval with `day` present at magnitude 0
(the parse of "0 day") emits no `NUMTODSINTERVAL` term at all — the output is
the unchanged date expression, not `x + NUMTODSINTERVAL(0, 'DAY')`. -/
theorem zero_day_unit_emits_no_term :
    (parseSqlInterval "0 day").day = some 0
    ∧ addIntervalParsed "x" { day := some 0 } = "x"
    ∧ addInterval "x" "0 day" = "x"
    ∧ addInterval "x" "0 day" ≠ "x + NUMTODSINTERVAL(0, 'DAY')" := by
  refine ⟨by decide, by decide, by decide, by decide⟩

/-! ## C5 -/

/-- C5 counterexample: on the interval "-6 month" (combined month magnitude
-6), `subtractInterval` emits `ADD_MONTHS(x, --6)` — a literal minus sign in
front of the rendering of -6 — and not the sign-flipped `ADD_MONTHS(x, 6)`,
so it is not `addInterval` with every magnitude's sign flipped. -/
theorem subtract_negative_months_double_minus :
    subtractInterval "x" "-6 month" = "ADD_MONTHS(x, --6)"
    ∧ subtractIntervalSpec "x" (parseSqlInterval "-6 month") = "ADD_MONTHS(x, 6)"
    ∧ subtractInterval "x" "-6 month"
      ≠ subtractIntervalSpec "x" (parseSqlInterval "-6 month") := by
  refine ⟨by decide, by decide, by decide⟩

/-- C5 amended: whenever the combined month magnitude of the interval is
nonnegative, `subtractInterval` is structurally identical to `addInterval`
with every magnitude's sign flipped — the same single `ADD_MONTHS` call with
the negated combined magnitude, and the same `NUMTODSINTERVAL` terms in the
same order chained with `-` instead of `+`; with a negative combined
magnitude the emitted `ADD_MONTHS` argument is instead a minus sign prepended
to the negative number's rendering. -/
theorem subtractInterval_flips_signs (x : String) (i : SqlInterval)
    (h : 0 ≤ combinedMonths i) :
    subtractIntervalParsed x i = subtractIntervalSpec x i := by
  simp only [subtractIntervalParsed]
  rw [addDur_durTerm_minus _ _ "SECOND" ", 'SECOND')" rfl,
    addDur_durTerm_minus _ _ "MINUTE" ", 'MINUTE')" rfl,
    addDur_durTerm_minus _ _ "HOUR" ", 'HOUR')" rfl,
    addDur_durTerm_minus _ _ "DAY" ", 'DAY')" rfl,
    totalMonths_eq_combined, subMonthsStep_eq_neg x _ h]
  simp only [subtractIntervalSpec]

/-- C5 witness: the amended statement at the interval
"1 year 6 month 2 day" (combined magnitude 18). -/
theorem subtractInterval_flips_signs_witness :
    0 ≤ combinedMonths { year := some 1, month := some 6, day := some 2 }
    ∧ subtractIntervalParsed "x" { year := some 1, month := some 6, day := some 2 }
      = subtractIntervalSpec "x" { year := some 1, month := some 6, day := some 2 }
    ∧ subtractInterval "x" "1 year 6 month 2 day"
      = "ADD_MONTHS(x, -18) - NUMTODSINTERVAL(2, 'DAY')" := by
  refine ⟨by decide,
    subtractInterval_flips_signs "x" { year := some 1, month := some 6, day := some 2 }
      (by decide),
    by decide⟩

/-! ## C6 -/

/-- The truncation tokens the dialect documents (second, minute, hour, day,
week, month, year). -/
def granularityTokens : List String := ["ss", "mm", "HH24", "DD", "IW", "MM", "YYYY"]

/-- C6 counterexample: `quarter` has no entry in `GRANULARITY_VALUE`, so
`timeGroupedColumn` interpolates JS `undefined` and emits
`TRUNC(x, 'undefined')`, whose quoted token is not a truncation token. -/
theorem quarter_granularity_unmapped :
    GRANULARITY_VALUE Granularity.quarter = none
    ∧ timeGroupedColumn (some Granularity.quarter) "x" = "TRUNC(x, 'undefined')"
    ∧ granularityTokens.contains "undefined" = false := by
  refine ⟨by decide, by decide, by decide⟩

/-- C6 amended: `timeGroupedColumn` is the identity when granularity is
absent, and maps second, minute, hour, day, week, month and year to
`TRUNC(expr, '<token>')` with tokens ss, mm, HH24, DD, IW, MM and YYYY
respectively; `quarter` alone has no token and yields
`TRUNC(expr, 'undefined')`. -/
theorem timeGroupedColumn_tokens (e : String) :
    timeGroupedColumn none e = e
    ∧ timeGroupedColumn (some Granularity.second) e = "TRUNC(" ++ e ++ ", 'ss')"
    ∧ timeGroupedColumn (some Granularity.minute) e = "TRUNC(" ++ e ++ ", 'mm')"
    ∧ timeGroupedColumn (some Granularity.hour) e = "TRUNC(" ++ e ++ ", 'HH24')"
    ∧ timeGroupedColumn (some Granularity.day) e = "TRUNC(" ++ e ++ ", 'DD')"
    ∧ timeGroupedColumn (some Granularity.week) e = "TRUNC(" ++ e ++ ", 'IW')"
    ∧ timeGroupedColumn (some Granularity.month) e = "TRUNC(" ++ e ++ ", 'MM')"
    ∧ timeGroupedColumn (some Granularity.year) e = "TRUNC(" ++ e ++ ", 'YYYY')"
    ∧ timeGroupedColumn (some Granularity.quarter) e = "TRUNC(" ++ e ++ ", 'undefined')" := by
  refine ⟨rfl, ?_, ?_, ?_, ?_, ?_, ?_, ?_, ?_⟩ <;>
    · simp only [timeGroupedColumn, GRANULARITY_VALUE, jsUndefToString, String.append_assoc]
      rfl

/-! ## C7 -/

/-- C7: `groupByClause` drops every entry whose `selectColumns()` is null
(granularity-less time dimensions) and every entry without a dimension,
returns the empty string exactly when nothing remains, and otherwise emits
` GROUP BY ` followed by the comma-joined full `dimensionSql()` expressions
of the surviving entries (never ordinal positions). -/
theorem groupByClause_shape (items : List SelectItem) :
    (∀ it ∈ items, it.selectColumns = none → groupByFilter it = false)
    ∧ (items.filter groupByFilter = [] ↔ groupByClause items = "")
    ∧ (items.filter groupByFilter ≠ [] →
        groupByClause items
          = " GROUP BY "
            ++ String.intercalate ", " ((items.filter groupByFilter).map SelectItem.dimensionSql)) := by
  refine ⟨?_, ?_, ?_⟩
  · intro it _ hnone
    simp [groupByFilter, hnone]
  · constructor
    · intro h
      simp [groupByClause, h]
    · intro h
      by_contra hne
      have : ¬(items.filter groupByFilter).isEmpty := by
        simpa [List.isEmpty_iff] using hne
      simp only [groupByClause, if_neg this] at h
      have hlen : (" GROUP BY "
          ++ String.intercalate ", " ((items.filter groupByFilter).map SelectItem.dimensionSql)).length
          = 0 := by rw [h]; rfl
      simp [String.length_append] at hlen
      exact absurd hlen.1 (by decide)
  · intro h
    have : ¬(items.filter groupByFilter).isEmpty := by
      simpa [List.isEmpty_iff] using h
    simp [groupByClause, this]

/-- C7 witness: one measure entry (no dimension), one plain dimension and one
granularity-less time dimension produce a GROUP BY over the plain dimension's
expression only; the empty list produces no clause. -/
theorem groupByClause_shape_witness :
    groupByClause
      [{ dimension := none, selectColumns := some ["cnt"], dimensionSql := "count(*)" },
       { dimension := some "visitors.source", selectColumns := some ["src"],
         dimensionSql := "\"visitors\".source" },
       { dimension := some "visitors.createdAt", selectColumns := none,
         dimensionSql := "\"visitors\".created_at" }]
      = " GROUP BY \"visitors\".source"
    ∧ groupByClause [] = "" := by
  constructor
  · exact ((groupByClause_shape
      [{ dimension := none, selectColumns := some ["cnt"], dimensionSql := "count(*)" },
       { dimension := some "visitors.source", selectColumns := some ["src"],
         dimensionSql := "\"visitors\".source" },
       { dimension := some "visitors.createdAt", selectColumns := none,
         dimensionSql := "\"visitors\".created_at" }]).2.2 (by decide)).trans (by decide)
  · exact (groupByClause_shape []).2.1.mp rfl

/-! ## C8 -/

/-- C8: a malformed (non-numeric) limit string does fall back to the default
10000, but a malformed truthy offset string is not treated as absent: its
`parseInt` is `NaN`, and the code interpolates the literal token `NaN` into
the pagination clauses — `OFFSET NaN ROWS` under the native strategy and
`ROWNUM <= NaN` / `rnum > NaN` bounds under ROWNUM wrapping. -/
theorem malformed_offset_emits_NaN :
    parseRowLimit (RawLimit.str "abc") = 10000
    ∧ (JsOffset.str "abc").truthy = true
    ∧ (JsOffset.str "abc").parseIntV = none
    ∧ groupByDimensionLimit true RawLimit.undef RawLimit.undef (JsOffset.str "abc")
      = " OFFSET NaN ROWS FETCH NEXT 10000 ROWS ONLY"
    ∧ wrapQueryWithRownum (RawLimit.num 10) RawLimit.undef (JsOffset.str "abc") "q"
      = "SELECT * FROM (\n  SELECT a.*, ROWNUM rnum FROM (\nq\n  ) a WHERE ROWNUM <= NaN\n) WHERE rnum > NaN" := by
  refine ⟨by decide, by decide, by decide, by decide, by decide⟩

/-! ## C9 -/

/-- C9: `likeIgnoreCase` builds a concatenated LIKE pattern with a leading
`'%' ||` exactly for the absent, contains and ends match types, a trailing
`|| '%'` exactly for the absent, contains and starts match types, neither for
exact, and the NOT keyword inserted before LIKE exactly when negated. -/
theorem likeIgnoreCase_shape (col prm : String) (negated : Bool) :
    likeIgnoreCase col negated prm none
      = col ++ (if negated then " NOT" else "") ++ " LIKE '%' || " ++ prm ++ " || '%'"
    ∧ likeIgnoreCase col negated prm (some "contains")
      = col ++ (if negated then " NOT" else "") ++ " LIKE '%' || " ++ prm ++ " || '%'"
    ∧ likeIgnoreCase col negated prm (some "starts")
      = col ++ (if negated then " NOT" else "") ++ " LIKE " ++ prm ++ " || '%'"
    ∧ likeIgnoreCase col negated prm (some "ends")
      = col ++ (if negated then " NOT" else "") ++ " LIKE '%' || " ++ prm
    ∧ likeIgnoreCase col negated prm (some "exact")
      = col ++ (if negated then " NOT" else "") ++ " LIKE " ++ prm := by
  refine ⟨?_, ?_, ?_, ?_, ?_⟩ <;>
    simp [likeIgnoreCase, strFalsy, String.append_assoc, String.append_empty]

/-! ## C10 -/

/-- C10: `preAggregationTableName` returns the base-implementation name
unchanged exactly when its length is within the dialect's maximum identifier
length, and otherwise fails with the user error that names the offending
identifier and suggests the `sqlAlias` override. -/
theorem preAggregationTableName_validates (name : String) :
    (preAggregationTableName name = Except.ok name ↔ name.length ≤ maxIdentifierLength)
    ∧ (maxIdentifierLength < name.length →
        preAggregationTableName name = Except.error (oracleNameErrorHead ++ name ++ ".")) := by
  constructor
  · constructor
    · intro h
      by_contra hlen
      simp only [preAggregationTableName, if_pos (Nat.lt_of_not_le hlen)] at h
      exact Except.noConfusion h
    · intro h
      simp [preAggregationTableName, Nat.not_lt.mpr h]
  · intro h
    simp [preAggregationTableName, h]

set_option maxRecDepth 4000 in
/-- C10 witness: a short name passes through unchanged; a 129-character name
fails with the error text carrying that name. -/
theorem preAggregationTableName_validates_witness :
    preAggregationTableName "visitors_pre_agg" = Except.ok "visitors_pre_agg"
    ∧ preAggregationTableName
        "aaaaaaaaaaaaaaaaaaaaaaaaaaaaaaaaaaaaaaaaaaaaaaaaaaaaaaaaaaaaaaaaaaaaaaaaaaaaaaaaaaaaaaaaaaaaaaaaaaaaaaaaaaaaaaaaaaaaaaaaaaaaaaaaa"
      = Except.error (oracleNameErrorHead
          ++ "aaaaaaaaaaaaaaaaaaaaaaaaaaaaaaaaaaaaaaaaaaaaaaaaaaaaaaaaaaaaaaaaaaaaaaaaaaaaaaaaaaaaaaaaaaaaaaaaaaaaaaaaaaaaaaaaaaaaaaaaaaaaaaaaa"
          ++ ".") := by
  constructor
  · exact (preAggregationTableName_validates "visitors_pre_agg").1.mpr (by decide)
  · exact (preAggregationTableName_validates
      "aaaaaaaaaaaaaaaaaaaaaaaaaaaaaaaaaaaaaaaaaaaaaaaaaaaaaaaaaaaaaaaaaaaaaaaaaaaaaaaaaaaaaaaaaaaaaaaaaaaaaaaaaaaaaaaaaaaaaaaaaaaaaaaaa").2
      (by decide)

end Cube
